import Mathlib

/-
Verification development for the mutate-csharp-dafny fuzzing campaign
(src/fuzzing of the repository).  Python values are shallowly embedded:

* Python `bytes` values are lists of naturals (one natural per byte);
* Python `str` values are lists of characters;
* machine words inside SHA-256 are naturals reduced modulo 2 ^ 32;
* code that can raise an uncaught Python exception returns `PyResult`.

Every definition is translated from the sources under src/fuzzing, with
the file and line range recorded next to it.  The single exception is
marked with a doc comment starting with the words `Modelled from the
spec`: the module util/program_status.py is imported by the sources but
is not part of src/, so its enumeration is reconstructed from its uses.
-/

namespace Fuzzing

/-- Python bytes, one natural number (0..255) per byte. -/
abbrev PyBytes := List Nat

/-- Python strings, one character per list entry. -/
abbrev PyStr := List Char

/-- Conversion from a Lean string literal to the Python string model. -/
def pystr (s : String) : PyStr := s.toList

/-- Outcome of running Python code that may raise an uncaught exception:
`exc` models an exception escaping the modelled fragment, `val` a normal
return value. -/
inductive PyResult (α : Type) where
  | exc : PyResult α
  | val : α → PyResult α
deriving DecidableEq, Repr

/-- The namedtuple returned by run_subprocess
(src/fuzzing/util/run_subprocess.py, line 8): exit code, captured
standard output and error (bytes), and whether the timeout elapsed. -/
structure ProcessExecutionResult where
  exit_code : Int
  stdout : PyBytes
  stderr : PyBytes
  timeout : Bool
deriving DecidableEq, Repr

/-- The KillStatus enumeration of src/fuzzing/run-fuzz-d.py, lines 28-37. -/
inductive KillStatus where
  | KILLED_COMPILER_CRASHED
  | KILLED_COMPILER_TIMEOUT
  | KILLED_COMPILER_MISSING_EXECUTABLE_OUTPUT
  | KILLED_RUNTIME_TIMEOUT
  | KILLED_RUNTIME_EXITCODE_DIFFER
  | KILLED_RUNTIME_STDOUT_DIFFER
  | KILLED_RUNTIME_STDERR_DIFFER
  | SURVIVED_HASH_EQUIVALENT
  | SURVIVED_HASH_DIFFER
deriving DecidableEq, Repr

/-- Modelled from the spec: the module util/program_status.py is imported
by src/fuzzing/dafny.py and src/fuzzing/run-fuzzer-campaign.py but is not
under src/.  Its `MutantStatus` members are reconstructed from the
members referenced by those two files together with the sibling
enumeration in src/fuzzing/util/mutant_status.py and the status taxonomy
of spec sections 4.4-4.5. -/
inductive MutantStatus where
  | KILLED_COMPILER_CRASHED
  | KILLED_COMPILER_TIMEOUT
  | KILLED_COMPILER_MISSING_EXECUTABLE_OUTPUT
  | KILLED_RUNTIME_TIMEOUT
  | KILLED_RUNTIME_EXITCODE_DIFFER
  | KILLED_RUNTIME_STDOUT_DIFFER
  | KILLED_RUNTIME_STDERR_DIFFER
  | SURVIVED_HASH_EQUIVALENT
  | SURVIVED_HASH_DIFFER
  | SURVIVED
deriving DecidableEq, Repr

/-- Modelled from the spec: `RegularProgramStatus` of the absent module
util/program_status.py, reconstructed from the members referenced in
src/fuzzing/dafny.py and src/fuzzing/run-fuzzer-campaign.py and spec
section 4.6 step 4. -/
inductive RegularProgramStatus where
  | EXPECTED_SUCCESS
  | COMPILER_ERROR
  | KNOWN_BUG
  | RUNTIME_TIMEOUT
  | RUNTIME_EXITCODE_NON_ZERO
  | RUNTIME_EXITCODE_DIFFER
  | RUNTIME_STDOUT_DIFFER
  | RUNTIME_STDERR_DIFFER
deriving DecidableEq, Repr

/-! SHA-256, the algorithm behind hashlib.sha256 used by
src/fuzzing/util/file_hash.py.  Words are naturals kept below 2 ^ 32. -/

/-- Reduction of a natural to a 32-bit word. -/
def mask32 (x : Nat) : Nat := x % 4294967296

/-- Bitwise complement on 32-bit words. -/
def not32 (x : Nat) : Nat := 4294967295 - mask32 x

/-- Right rotation of a 32-bit word by r positions (r at most 32). -/
def rotr32 (r x : Nat) : Nat :=
  mask32 x / 2 ^ r + mask32 x % 2 ^ r * 2 ^ (32 - r)

/-- Logical right shift of a 32-bit word. -/
def shr32 (r x : Nat) : Nat := mask32 x / 2 ^ r

/-- The SHA-256 choice function. -/
def sha256_ch (e f g : Nat) : Nat :=
  Nat.xor (Nat.land e f) (Nat.land (not32 e) g)

/-- The SHA-256 majority function. -/
def sha256_maj (a b c : Nat) : Nat :=
  Nat.xor (Nat.xor (Nat.land a b) (Nat.land a c)) (Nat.land b c)

/-- The SHA-256 big sigma 0 function. -/
def sha256_bsig0 (x : Nat) : Nat :=
  Nat.xor (Nat.xor (rotr32 2 x) (rotr32 13 x)) (rotr32 22 x)

/-- The SHA-256 big sigma 1 function. -/
def sha256_bsig1 (x : Nat) : Nat :=
  Nat.xor (Nat.xor (rotr32 6 x) (rotr32 11 x)) (rotr32 25 x)

/-- The SHA-256 small sigma 0 function. -/
def sha256_ssig0 (x : Nat) : Nat :=
  Nat.xor (Nat.xor (rotr32 7 x) (rotr32 18 x)) (shr32 3 x)

/-- The SHA-256 small sigma 1 function. -/
def sha256_ssig1 (x : Nat) : Nat :=
  Nat.xor (Nat.xor (rotr32 17 x) (rotr32 19 x)) (shr32 10 x)

/-- The 64 SHA-256 round constants. -/
def sha256_k : List Nat :=
  [
   1116352408, 1899447441, 3049323471, 3921009573, 961987163,
   1508970993, 2453635748, 2870763221, 3624381080, 310598401,
   607225278, 1426881987, 1925078388, 2162078206, 2614888103,
   3248222580, 3835390401, 4022224774, 264347078, 604807628,
   770255983, 1249150122, 1555081692, 1996064986, 2554220882,
   2821834349, 2952996808, 3210313671, 3336571891, 3584528711,
   113926993, 338241895, 666307205, 773529912, 1294757372,
   1396182291, 1695183700, 1986661051, 2177026350, 2456956037,
   2730485921, 2820302411, 3259730800, 3345764771, 3516065817,
   3600352804, 4094571909, 275423344, 430227734, 506948616,
   659060556, 883997877, 958139571, 1322822218, 1537002063,
   1747873779, 1955562222, 2024104815, 2227730452, 2361852424,
   2428436474, 2756734187, 3204031479, 3329325298]

/-- The SHA-256 initial hash value. -/
def sha256_h0 : List Nat :=
  [
   1779033703, 3144134277, 1013904242, 2773480762,
   1359893119, 2600822924, 528734635, 1541459225]

/-- Big-endian assembly of four bytes into a 32-bit word. -/
def bytesToWord (b0 b1 b2 b3 : Nat) : Nat :=
  b0 % 256 * 16777216 + b1 % 256 * 65536 + b2 % 256 * 256 + b3 % 256

/-- Grouping of a byte list into big-endian 32-bit words. -/
def wordsOfBytes : List Nat → List Nat
  | b0 :: b1 :: b2 :: b3 :: rest => bytesToWord b0 b1 b2 b3 :: wordsOfBytes rest
  | _ => []

/-- One extension step of the SHA-256 message schedule: appends the word
at the current length. -/
def sha256_extend_step (w : List Nat) : List Nat :=
  w ++ [mask32 (sha256_ssig1 (w.getD (w.length - 2) 0) + w.getD (w.length - 7) 0
        + sha256_ssig0 (w.getD (w.length - 15) 0) + w.getD (w.length - 16) 0)]

/-- The full 64-entry SHA-256 message schedule of one block. -/
def sha256_schedule (w : List Nat) : List Nat :=
  (List.range 48).foldl (fun acc _ => sha256_extend_step acc) w

/-- The eight working variables of the SHA-256 compression loop. -/
structure Sha256State where
  a : Nat
  b : Nat
  c : Nat
  d : Nat
  e : Nat
  f : Nat
  g : Nat
  h : Nat
deriving Repr

/-- One SHA-256 compression round with round constant kt and schedule
word wt. -/
def sha256_round (st : Sha256State) (kt wt : Nat) : Sha256State :=
  { a := mask32 (mask32 (st.h + sha256_bsig1 st.e + sha256_ch st.e st.f st.g + kt + wt)
          + mask32 (sha256_bsig0 st.a + sha256_maj st.a st.b st.c))
    b := st.a
    c := st.b
    d := st.c
    e := mask32 (st.d + mask32 (st.h + sha256_bsig1 st.e + sha256_ch st.e st.f st.g + kt + wt))
    f := st.e
    g := st.f
    h := st.g }

/-- SHA-256 compression of one 64-byte block into the running hash. -/
def sha256_compress (h : List Nat) (block : List Nat) : List Nat :=
  let w := sha256_schedule (wordsOfBytes block)
  let init : Sha256State :=
    { a := h.getD 0 0, b := h.getD 1 0, c := h.getD 2 0, d := h.getD 3 0,
      e := h.getD 4 0, f := h.getD 5 0, g := h.getD 6 0, h := h.getD 7 0 }
  let fin := (sha256_k.zip w).foldl (fun st kw => sha256_round st kw.1 kw.2) init
  [mask32 (h.getD 0 0 + fin.a), mask32 (h.getD 1 0 + fin.b),
   mask32 (h.getD 2 0 + fin.c), mask32 (h.getD 3 0 + fin.d),
   mask32 (h.getD 4 0 + fin.e), mask32 (h.getD 5 0 + fin.f),
   mask32 (h.getD 6 0 + fin.g), mask32 (h.getD 7 0 + fin.h)]

/-- Big-endian encoding of a 64-bit length field into eight bytes. -/
def word64be (n : Nat) : List Nat :=
  [n / 2 ^ 56 % 256, n / 2 ^ 48 % 256, n / 2 ^ 40 % 256, n / 2 ^ 32 % 256,
   n / 2 ^ 24 % 256, n / 2 ^ 16 % 256, n / 2 ^ 8 % 256, n % 256]

/-- SHA-256 padding: a 0x80 byte, zeros to 56 modulo 64, then the
big-endian bit length. -/
def sha256_pad (msg : List Nat) : List Nat :=
  msg ++ [128] ++ List.replicate ((119 - msg.length % 64) % 64) 0
      ++ word64be (msg.length * 8 % 2 ^ 64)

/-- Splitting a byte list into consecutive chunks of at most csize bytes,
as done by repeated file.read(csize) calls in
src/fuzzing/util/file_hash.py, lines 19-21 (an empty read ends the
loop). -/
def readChunks (csize : Nat) (bs : List Nat) : List (List Nat) :=
  if csize = 0 then []
  else match bs with
    | [] => []
    | b :: rest => List.take csize (b :: rest) :: readChunks csize (List.drop csize (b :: rest))
termination_by bs.length
decreasing_by
  simp_all
  omega

/-- Big-endian decomposition of a 32-bit word into four bytes. -/
def word32be (n : Nat) : List Nat :=
  [n / 16777216 % 256, n / 65536 % 256, n / 256 % 256, n % 256]

/-- The 32-byte SHA-256 digest of a byte string. -/
def sha256_digest (msg : List Nat) : List Nat :=
  ((readChunks 64 (sha256_pad msg)).foldl sha256_compress sha256_h0).foldr
    (fun w acc => word32be w ++ acc) []

/-- Lowercase hexadecimal character of a value below 16. -/
def hex_char (n : Nat) : Char :=
  (pystr ("0123456789abcdef")).getD n ('0')

/-- Two lowercase hexadecimal characters of one byte. -/
def byte_to_hex (b : Nat) : List Char :=
  [hex_char (b / 16 % 16), hex_char (b % 16)]

/-- The lowercase hexadecimal SHA-256 digest of a byte string: the
contract of hashlib.sha256(data).hexdigest(). -/
def sha256_hexdigest (msg : List Nat) : PyStr :=
  (sha256_digest msg).foldr (fun b acc => byte_to_hex b ++ acc) []

/-- Model of hash_func.update on a hashlib hash object: per the hashlib
contract the eventual digest depends exactly on the concatenation of all
bytes passed to update, so the object state is the byte string absorbed
so far. -/
def hashlib_update (hash_state chunk : PyBytes) : PyBytes := hash_state ++ chunk

/-- compute_file_hash of src/fuzzing/util/file_hash.py, lines 6-24: read
the file in chunks of 8192 bytes, feed each chunk to a hashlib sha256
object, and return the hexadecimal digest.  The file is modelled by its
byte contents. -/
def compute_file_hash (file_bytes : PyBytes) : PyStr :=
  sha256_hexdigest ((readChunks 8192 file_bytes).foldl hashlib_update [])

/-! Mutant kill classification, src/fuzzing/run-fuzz-d.py and
src/fuzzing/dafny.py.  The external processes (Dafny compiler, compiled
artifact) are modelled by the signals the scripts branch on: the
ProcessExecutionResult the subprocess would return, and whether the
expected artifact file exists. -/

/-- execute_mutated_dafny of src/fuzzing/run-fuzz-d.py, lines 142-165:
classification of the mutated compilation from the observed signals
(timeout flag and exit code of the compile subprocess, existence of the
executable output).  None means compilation survived and execution is
still needed. -/
def execute_mutated_dafny (timeout : Bool) (exit_code : Int)
    (executable_output_is_file : Bool) : Option KillStatus :=
  if timeout then some KillStatus.KILLED_COMPILER_TIMEOUT
  else if exit_code ≠ 0 then some KillStatus.KILLED_COMPILER_CRASHED
  else if !executable_output_is_file then some KillStatus.KILLED_COMPILER_MISSING_EXECUTABLE_OUTPUT
  else none

/-- execute_mutated_compiled_program of src/fuzzing/run-fuzz-d.py, lines
187-213.  The two binaries are modelled by their byte contents, and the
execution subprocess by the ProcessExecutionResult it would return.  The
Bool of the result records whether run_subprocess was invoked (line
199). -/
def execute_mutated_compiled_program
    (compiled_program_binary default_program_binary : PyBytes)
    (runtime_result default_execution_result : ProcessExecutionResult) :
    KillStatus × Bool :=
  let default_file_hash := compute_file_hash default_program_binary
  let mutated_file_hash := compute_file_hash compiled_program_binary
  if default_file_hash = mutated_file_hash then
    (KillStatus.SURVIVED_HASH_EQUIVALENT, false)
  else if runtime_result.timeout then
    (KillStatus.KILLED_COMPILER_TIMEOUT, true)
  else if runtime_result.exit_code ≠ default_execution_result.exit_code then
    (KillStatus.KILLED_RUNTIME_EXITCODE_DIFFER, true)
  else if runtime_result.stdout ≠ default_execution_result.stdout then
    (KillStatus.KILLED_RUNTIME_STDERR_DIFFER, true)
  else if runtime_result.stderr ≠ default_execution_result.stderr then
    (KillStatus.KILLED_RUNTIME_STDOUT_DIFFER, true)
  else
    (KillStatus.SURVIVED_HASH_DIFFER, true)

/-- The composite per-mutant kill status of one run-fuzz-d.py loop pass,
steps 9-10 of mutation_guided_test_generation (lines 396-417): the
compile-phase status when compilation already decides, otherwise the
execution-phase status. -/
def mutant_kill_status (compile_timeout : Bool) (compile_exit_code : Int)
    (executable_output_is_file : Bool)
    (compiled_program_binary default_program_binary : PyBytes)
    (runtime_result default_execution_result : ProcessExecutionResult) :
    KillStatus :=
  match execute_mutated_dafny compile_timeout compile_exit_code executable_output_is_file with
  | some kill_status => kill_status
  | none => (execute_mutated_compiled_program compiled_program_binary default_program_binary
      runtime_result default_execution_result).1

/-- DafnyBackend.mutated_compile_to_backend of src/fuzzing/dafny.py,
lines 197-232: classification of the mutated compilation from the
timeout flag and exit code of the compile subprocess. -/
def mutated_compile_to_backend (timeout : Bool) (exit_code : Int) : MutantStatus :=
  if timeout then MutantStatus.KILLED_COMPILER_TIMEOUT
  else if exit_code ≠ 0 then MutantStatus.KILLED_COMPILER_CRASHED
  else MutantStatus.SURVIVED

/-- DafnyBackend.mutant_execution of src/fuzzing/dafny.py, lines 234-266.
The execution subprocess is modelled by the ProcessExecutionResult it
returns; the Bool of the result records that run_subprocess is invoked
unconditionally (line 244). -/
def mutant_execution (runtime_result default_execution_result : ProcessExecutionResult) :
    MutantStatus × Bool :=
  let mutant_status :=
    if runtime_result.timeout then MutantStatus.KILLED_RUNTIME_TIMEOUT
    else if runtime_result.exit_code ≠ default_execution_result.exit_code then
      MutantStatus.KILLED_RUNTIME_EXITCODE_DIFFER
    else if runtime_result.stdout ≠ default_execution_result.stdout then
      MutantStatus.KILLED_RUNTIME_STDOUT_DIFFER
    else if runtime_result.stderr ≠ default_execution_result.stderr then
      MutantStatus.KILLED_RUNTIME_STDERR_DIFFER
    else MutantStatus.SURVIVED
  (mutant_status, true)

/-! Mutant traces, src/fuzzing/util/mutant_trace.py. -/

/-- Python str.strip(): removal of leading and trailing whitespace. -/
def pyStrip (s : PyStr) : PyStr :=
  ((s.dropWhile Char.isWhitespace).reverse.dropWhile Char.isWhitespace).reverse

/-- Python str.split(sep) for a one-character separator: every occurrence
of the separator starts a new field, and the empty string splits to one
empty field. -/
def pySplitChar (sep : Char) : PyStr → List PyStr
  | [] => [[]]
  | c :: cs =>
    if c = sep then [] :: pySplitChar sep cs
    else match pySplitChar sep cs with
      | [] => [[c]]
      | p :: rest => (c :: p) :: rest

/-- Python str.startswith(p). -/
def pyStartsWith : PyStr → PyStr → Bool
  | [], _ => true
  | _ :: _, [] => false
  | p :: ps, c :: cs => p = c && pyStartsWith ps cs

/-- Python list(set(l)): deduplication.  The iteration order of a Python
set is unspecified; first-occurrence order is used here, and no theorem
below depends on the order. -/
def pyDedup {α : Type} [DecidableEq α] (l : List α) : List α := l.eraseDups

/-- MutantTrace.parse_recorded_trace of src/fuzzing/util/mutant_trace.py,
lines 26-34: split the line on the colon, reject unless exactly two
fields result and the first starts with the activation-key prefix. -/
def parse_recorded_trace (trace : PyStr) : Option (PyStr × PyStr) :=
  match pySplitChar (':') trace with
  | [env_var, mutant_id] =>
    if pyStartsWith (pystr ("MUTATE_CSHARP_ACTIVATED_MUTANT")) env_var then
      some (env_var, mutant_id)
    else none
  | _ => none

/-- MutantTrace.reconstruct_trace_from_disk of
src/fuzzing/util/mutant_trace.py, lines 7-24.  The trace file is
modelled as None when absent (open raises FileNotFoundError, line 9) or
as its list of lines.  Line 17 tests `is not None` over the parsed
entries, so the whole trace is rejected (`val none`) as soon as one line
parses; when every line is malformed the parsed None entries survive,
and the filtering comprehension of lines 22-23 then raises a TypeError
unpacking None. -/
def reconstruct_trace_from_disk (trace_file : Option (List PyStr))
    (source_file_env_var : Option PyStr) :
    PyResult (Option (List (Option (PyStr × PyStr)))) :=
  match trace_file with
  | none => PyResult.exc
  | some file_lines =>
    let mutants_covered_by_program := file_lines.map (fun t => parse_recorded_trace (pyStrip t))
    let mutants_covered_by_program := pyDedup mutants_covered_by_program
    if mutants_covered_by_program.any (fun entry => entry.isSome) then
      PyResult.val none
    else
      match source_file_env_var with
      | none => PyResult.val (some mutants_covered_by_program)
      | some env_var =>
        if mutants_covered_by_program.any (fun entry => entry.isNone) then
          PyResult.exc
        else
          PyResult.val (some (mutants_covered_by_program.filter
            (fun entry => match entry with
              | some pair => pair.1 = env_var
              | none => false)))

/-- Sequencing of a Python list comprehension whose elements may raise:
the first exception escapes. -/
def mapPyResult {α β : Type} (f : α → PyResult β) : List α → PyResult (List β)
  | [] => PyResult.val []
  | x :: xs =>
    match f x with
    | PyResult.exc => PyResult.exc
    | PyResult.val y =>
      match mapPyResult f xs with
      | PyResult.exc => PyResult.exc
      | PyResult.val ys => PyResult.val (y :: ys)

/-- Outcome of the trace-loading steps of one campaign iteration. -/
inductive TraceLoadOutcome where
  | no_trace_continue
  | corrupted_continue
  | proceed : List (List (Option (PyStr × PyStr))) → TraceLoadOutcome
deriving DecidableEq, Repr

/-- Steps 8 and 10 of mutation_guided_test_generation in
src/fuzzing/run-fuzzer-campaign.py, lines 373-395: after traced
compilation, one entry per target backend gives that backend's trace
file (None when the file does not exist).  When every backend's trace
file is absent the iteration continues (no mutants reachable, lines
373-376); otherwise every trace path is loaded with
MutantTrace.reconstruct_trace_from_disk (lines 386-391), and a trace
that loaded as None makes the iteration continue as corrupted (lines
393-395). -/
def load_traces_after_traced_compilation
    (backend_trace_files : List (Option (List PyStr)))
    (source_file_env_var : Option PyStr) : PyResult TraceLoadOutcome :=
  if backend_trace_files.all (fun f => f.isNone) then
    PyResult.val TraceLoadOutcome.no_trace_continue
  else
    match mapPyResult (fun f => reconstruct_trace_from_disk f source_file_env_var)
        backend_trace_files with
    | PyResult.exc => PyResult.exc
    | PyResult.val mutant_execution_traces =>
      if mutant_execution_traces.any (fun t => t.isNone) then
        PyResult.val TraceLoadOutcome.corrupted_continue
      else
        PyResult.val (TraceLoadOutcome.proceed (mutant_execution_traces.map
          (fun t => t.getD [])))

/-! The campaign summarization step and its partition check,
src/fuzzing/run-fuzzer-campaign.py lines 543-580 (the same logic appears
in src/fuzzing/run-fuzz-d.py lines 442-478).  Mutants are
(activation key, mutant id) string pairs, and Python list.sort() on such
pairs is lexicographic. -/

/-- Mutants as (file activation key, mutant id) pairs. -/
abbrev Mutant := PyStr × PyStr

/-- Python string comparison: strict lexicographic order by code point. -/
def pyStrLt : PyStr → PyStr → Bool
  | [], [] => false
  | [], _ :: _ => true
  | _ :: _, [] => false
  | c :: cs, d :: ds =>
    if c.toNat < d.toNat then true
    else if d.toNat < c.toNat then false
    else pyStrLt cs ds

/-- Python tuple comparison on mutant pairs, non-strict. -/
def pyPairLe (x y : Mutant) : Bool :=
  if pyStrLt x.1 y.1 then true
  else if pyStrLt y.1 x.1 then false
  else !(pyStrLt y.2 x.2)

/-- Ordered insertion for the model of Python list.sort(). -/
def pySortInsert (m : Mutant) : List Mutant → List Mutant
  | [] => [m]
  | x :: xs => if pyPairLe m x then m :: x :: xs else x :: pySortInsert m xs

/-- Model of Python list.sort() on lists of mutant pairs. -/
def pySort (l : List Mutant) : List Mutant := l.foldr pySortInsert []

/-- Steps 18-19 and the final invariant check of
mutation_guided_test_generation, src/fuzzing/run-fuzzer-campaign.py lines
543-580: the killed, covered-but-not-killed and skipped lists are
concatenated and sorted, early_termination records whether this differs
from the (already sorted) covered list, and exit(1) is reached exactly
when early_termination holds while the time budget has not expired and
surviving mutants remain.  The result is (early_termination, aborts);
the two Bool arguments are the observed values of time_budget_exists and
of the test len(surviving_mutants) > 0. -/
def campaign_summarize_abort
    (mutants_covered_by_program mutants_killed_by_program
     mutants_covered_but_not_killed_by_program mutants_skipped_by_program : List Mutant)
    (time_budget_remains surviving_mutants_nonempty : Bool) : Bool × Bool :=
  let all_mutants_considered_by_program :=
    pySort (mutants_killed_by_program ++ mutants_covered_but_not_killed_by_program
      ++ mutants_skipped_by_program)
  let early_termination : Bool :=
    if mutants_covered_by_program = all_mutants_considered_by_program then false else true
  (early_termination, early_termination && time_budget_remains && surviving_mutants_nonempty)

/-! The per-mutant testing loop body of src/fuzzing/run-fuzz-d.py,
mutation_guided_test_generation lines 373-440. -/

/-- Python set.remove(m) on a set modelled as a duplicate-free list:
raises KeyError when the element is absent. -/
def py_set_remove (s : List Mutant) (m : Mutant) : PyResult (List Mutant) :=
  if m ∈ s then PyResult.val (s.erase m) else PyResult.exc

/-- Python set.add(m) on a set modelled as a duplicate-free list. -/
def py_set_add (s : List Mutant) (m : Mutant) : List Mutant :=
  if m ∈ s then s else s ++ [m]

/-- External processes started by one run-fuzz-d.py loop pass for one
candidate mutant. -/
inductive FdInvocation where
  | compile_mutated
  | execute_mutated
deriving DecidableEq, Repr

/-- The loop-carried bookkeeping of mutation_guided_test_generation in
src/fuzzing/run-fuzz-d.py: the in-memory surviving and killed sets and
the per-program killed, skipped and covered-but-not-killed lists. -/
structure FdLoopState where
  surviving_mutants : List Mutant
  killed_mutants : List Mutant
  mutants_skipped_by_program : List Mutant
  mutants_killed_by_program : List Mutant
  mutants_covered_but_not_killed_by_program : List Mutant
deriving DecidableEq, Repr

/-- The external observations of one run-fuzz-d.py loop pass for one
candidate mutant: whether the durable kill-claim directory exists (line
380), the signals of the mutated compilation (lines 396-404), the two
binaries and the mutated execution result (lines 411-417). -/
structure FdMutantEnv where
  kill_dir_exists : Bool
  compile_timeout : Bool
  compile_exit_code : Int
  executable_output_is_file : Bool
  mutated_compiled_binary : PyBytes
  default_compiled_binary : PyBytes
  runtime_result : ProcessExecutionResult
  default_execution_result : ProcessExecutionResult

/-- One pass of the per-mutant loop of src/fuzzing/run-fuzz-d.py, lines
379-440, for candidate mutant m (the budget check of lines 374-377 is
assumed passed by the caller).  Lines 380-384 record an already-claimed
mutant as skipped without a continue statement, so control falls through
to the compilation of the mutated variant (line 396); a subsequent
non-survival classification re-removes m from the surviving set (line
425), which raises KeyError when m was already removed.  The result
pairs the external process invocations made with the final state or the
escaped exception. -/
def fd_process_candidate_mutant (m : Mutant) (env : FdMutantEnv)
    (st : FdLoopState) : List FdInvocation × PyResult FdLoopState :=
  let after_skip_check : PyResult FdLoopState :=
    if env.kill_dir_exists then
      match py_set_remove st.surviving_mutants m with
      | PyResult.exc => PyResult.exc
      | PyResult.val surviving =>
        PyResult.val { st with
          surviving_mutants := surviving,
          killed_mutants := py_set_add st.killed_mutants m,
          mutants_skipped_by_program := st.mutants_skipped_by_program ++ [m] }
    else PyResult.val st
  match after_skip_check with
  | PyResult.exc => ([], PyResult.exc)
  | PyResult.val st1 =>
    let maybe_kill_status :=
      execute_mutated_dafny env.compile_timeout env.compile_exit_code
        env.executable_output_is_file
    let step :=
      match maybe_kill_status with
      | some kill_status => ([FdInvocation.compile_mutated], kill_status)
      | none =>
        let executed := execute_mutated_compiled_program env.mutated_compiled_binary
          env.default_compiled_binary env.runtime_result env.default_execution_result
        (FdInvocation.compile_mutated ::
          (if executed.2 then [FdInvocation.execute_mutated] else []), executed.1)
    let kill_status := step.2
    if kill_status = KillStatus.SURVIVED_HASH_EQUIVALENT
        ∨ kill_status = KillStatus.SURVIVED_HASH_DIFFER then
      (step.1, PyResult.val { st1 with
        mutants_covered_but_not_killed_by_program :=
          st1.mutants_covered_but_not_killed_by_program ++ [m] })
    else
      match py_set_remove st1.surviving_mutants m with
      | PyResult.exc => (step.1, PyResult.exc)
      | PyResult.val surviving =>
        (step.1, PyResult.val { st1 with
          surviving_mutants := surviving,
          killed_mutants := py_set_add st1.killed_mutants m,
          mutants_killed_by_program := st1.mutants_killed_by_program ++ [m] })

/-! The kill-info persistence chain of src/fuzzing/run-fuzzer-campaign.py,
lines 516-541. -/

/-- Step 17 of mutation_guided_test_generation in
src/fuzzing/run-fuzzer-campaign.py, lines 516-541: from the per-backend
merged mutant statuses, the overall status under which
persist_kill_info (and with it the creation of the durable kill-claim
directory) is attempted; None when no branch of the if/elif chain
matches and persist_kill_info is never called. -/
def select_overall_kill_status (mutant_error_statuses : List MutantStatus) :
    Option MutantStatus :=
  if mutant_error_statuses.any (fun s => s = MutantStatus.KILLED_COMPILER_CRASHED) then
    some MutantStatus.KILLED_COMPILER_CRASHED
  else if mutant_error_statuses.any (fun s => s = MutantStatus.KILLED_COMPILER_TIMEOUT) then
    some MutantStatus.KILLED_COMPILER_TIMEOUT
  else if mutant_error_statuses.any (fun s => s = MutantStatus.KILLED_RUNTIME_EXITCODE_DIFFER) then
    some MutantStatus.KILLED_RUNTIME_EXITCODE_DIFFER
  else if mutant_error_statuses.any (fun s => s = MutantStatus.KILLED_RUNTIME_STDOUT_DIFFER) then
    some MutantStatus.KILLED_RUNTIME_STDOUT_DIFFER
  else if mutant_error_statuses.any (fun s => s = MutantStatus.KILLED_RUNTIME_STDERR_DIFFER) then
    some MutantStatus.KILLED_RUNTIME_STDERR_DIFFER
  else none

/-! One iteration of the campaign loop of
src/fuzzing/run-fuzzer-campaign.py, lines 212-394, abstracted to the
sequence of filesystem claims and external phases it performs. -/

/-- The observable phases of one campaign-loop iteration.
mkdir_program_dir records one mkdir call on the per-program permanent
directory together with whether the call raised FileExistsError. -/
inductive CampaignEvent where
  | fuzz_d_generate
  | mkdir_program_dir : Bool → CampaignEvent
  | copy_program_to_dirs
  | regular_compile
  | regular_execute
  | persist_failure
  | traced_compile
  | load_execution_traces
deriving DecidableEq, Repr

/-- The branch outcomes of one campaign-loop iteration of
src/fuzzing/run-fuzzer-campaign.py: each field is the value of the
corresponding test in lines 221-373 on this iteration's inputs. -/
structure CampaignIterEnv where
  program_dir_exists : Bool
  fuzz_d_ok : Bool
  compile_known_bug : Bool
  compile_error : Bool
  execute_known_bug : Bool
  execute_exitcode_nonzero : Bool
  execute_timeout : Bool
  execute_outputs_differ : Bool
  some_trace_exists : Bool
deriving Repr

/-- The sequence of events of one iteration of
mutation_guided_test_generation in src/fuzzing/run-fuzzer-campaign.py,
lines 216-394.  The per-program permanent directory is created at step 2
(line 260), directly after generation and before any baseline
compilation; when control reaches step 9 (line 380) the same directory
is created again, and since this runner already created it at step 2 the
second mkdir raises FileExistsError, which is caught and makes the
iteration continue (line 381-383), so trace loading and mutant testing
are never reached on this path. -/
def campaign_iteration_events (env : CampaignIterEnv) : List CampaignEvent :=
  if env.program_dir_exists then []
  else
    let ev1 := [CampaignEvent.fuzz_d_generate]
    if !env.fuzz_d_ok then ev1
    else
      let ev2 := ev1 ++ [CampaignEvent.mkdir_program_dir false,
        CampaignEvent.copy_program_to_dirs, CampaignEvent.regular_compile]
      if env.compile_known_bug then ev2
      else if env.compile_error then ev2 ++ [CampaignEvent.persist_failure]
      else
        let ev3 := ev2 ++ [CampaignEvent.regular_execute]
        if env.execute_known_bug then ev3
        else if env.execute_exitcode_nonzero then ev3 ++ [CampaignEvent.persist_failure]
        else if env.execute_timeout then ev3 ++ [CampaignEvent.persist_failure]
        else if env.execute_outputs_differ then ev3 ++ [CampaignEvent.persist_failure]
        else
          let ev4 := ev3 ++ [CampaignEvent.traced_compile]
          if !env.some_trace_exists then ev4
          else ev4 ++ [CampaignEvent.mkdir_program_dir true]

/-! Baseline compile and execution classification with the known-defect
allow-lists, src/fuzzing/dafny.py. -/

/-- The DafnyBackend enumeration of src/fuzzing/dafny.py, lines 38-49. -/
inductive DafnyBackend where
  | JAVA
  | JAVASCRIPT
  | PYTHON
  | CSHARP
  | GO
  | CPP
  | RUST
  | RESOLVED_DESUGARED_EXECUTABLE_DAFNY
deriving DecidableEq, Repr

/-- DafnyBackend.get_known_compilation_errors of src/fuzzing/dafny.py,
lines 91-96. -/
def get_known_compilation_errors : DafnyBackend → List PyStr
  | DafnyBackend.JAVA =>
    [pystr ("incompatible types"), pystr ("incompatible bounds"),
     pystr ("no suitable method"), pystr ("lambda"), pystr ("unreachable statement")]
  | DafnyBackend.CSHARP =>
    [pystr ("error CS1628"), pystr ("error CS0103"),
     pystr ("at Microsoft.Dafny.Translator.TrForall_NewValueAssumption(IToken tok, List`1 boundVars, List`1 bounds, Expression range, Expression lhs, Expression rhs, Attributes attributes, ExpressionTranslator etran, ExpressionTranslator prevEtran)")]
  | _ => []

/-- DafnyBackend.get_known_execution_errors of src/fuzzing/dafny.py,
lines 98-102. -/
def get_known_execution_errors : DafnyBackend → List PyStr
  | DafnyBackend.JAVA => [pystr ("CodePoint")]
  | _ => []

/-- The status classification of
DafnyBackend.regular_compile_to_backend, src/fuzzing/dafny.py lines
143-156.  On a non-zero exit the code evaluates
standard_output.contains(known_error_substring) for the first element of
the backend's known-error list (line 146); Python str has no attribute
contains, so this raises AttributeError whenever the list is non-empty,
for any standard output.  With an empty list the any() generator is
empty and the status stays COMPILER_ERROR. -/
def regular_compile_program_status (backend : DafnyBackend) (exit_code : Int)
    (timeout : Bool) (_standard_output : PyStr) : PyResult RegularProgramStatus :=
  if exit_code ≠ 0 then
    match get_known_compilation_errors backend with
    | [] => PyResult.val RegularProgramStatus.COMPILER_ERROR
    | _ :: _ => PyResult.exc
  else if timeout then PyResult.val RegularProgramStatus.COMPILER_ERROR
  else PyResult.val RegularProgramStatus.EXPECTED_SUCCESS

/-- The status classification of DafnyBackend.regular_execution,
src/fuzzing/dafny.py lines 179-191: timeout first, then non-zero exit
code, where the known-execution-error test again calls the non-existent
str.contains (line 185) and raises AttributeError whenever the backend's
list is non-empty. -/
def regular_execution_program_status (backend : DafnyBackend)
    (runtime_result : ProcessExecutionResult) (_standard_output : PyStr) :
    PyResult RegularProgramStatus :=
  if runtime_result.timeout then PyResult.val RegularProgramStatus.RUNTIME_TIMEOUT
  else if runtime_result.exit_code ≠ 0 then
    match get_known_execution_errors backend with
    | [] => PyResult.val RegularProgramStatus.RUNTIME_EXITCODE_NON_ZERO
    | _ :: _ => PyResult.exc
  else PyResult.val RegularProgramStatus.EXPECTED_SUCCESS

/-! Supporting lemmas. -/

/-- Folding the hashlib update over the chunks of a byte string absorbs
exactly the original byte string: auxiliary induction on a length
bound. -/
theorem readChunks_foldl_aux (csize : Nat) (hc : 0 < csize) :
    ∀ (n : Nat) (bs : PyBytes), bs.length ≤ n →
      ∀ (acc : PyBytes), (readChunks csize bs).foldl hashlib_update acc = acc ++ bs := by
  intro n
  induction n with
  | zero =>
    intro bs hb acc
    have hbs : bs = [] := List.length_eq_zero.mp (Nat.le_zero.mp hb)
    subst hbs
    rw [readChunks]
    simp
  | succ n ih =>
    intro bs hb acc
    match bs with
    | [] =>
      rw [readChunks]
      simp
    | b :: rest =>
      rw [readChunks]
      have hcz : ¬ csize = 0 := Nat.pos_iff_ne_zero.mp hc
      simp only [hcz, if_false]
      rw [List.foldl_cons]
      rw [ih (List.drop csize (b :: rest)) ?_ (hashlib_update acc (List.take csize (b :: rest)))]
      · unfold hashlib_update
        rw [List.append_assoc, List.take_append_drop]
      · have hdrop : (List.drop csize (b :: rest)).length = (b :: rest).length - csize :=
          List.length_drop csize (b :: rest)
        have hcons : (b :: rest).length = rest.length + 1 := List.length_cons b rest
        simp only [List.length_cons] at hb
        omega

/-- Folding the hashlib update over the chunks of a byte string absorbs
exactly the original byte string. -/
theorem readChunks_foldl_append (csize : Nat) (hc : 0 < csize) (bs : PyBytes) :
    (readChunks csize bs).foldl hashlib_update [] = bs :=
  readChunks_foldl_aux csize hc bs.length bs (Nat.le_refl _) []

/-! Claim theorems. -/

/-- C10: compute_file_hash is a deterministic function of the file's
byte contents alone, and its chunked reading (8192-byte reads fed to the
hashlib object one by one) produces exactly the hexadecimal SHA-256
digest of the whole content in one pass, so two files with identical
byte contents always receive equal digest strings. -/
theorem C10_compute_file_hash_chunking :
    ∀ (file_bytes : PyBytes), compute_file_hash file_bytes = sha256_hexdigest file_bytes := by
  intro file_bytes
  unfold compute_file_hash
  rw [readChunks_foldl_append 8192 (by norm_num) file_bytes]

/-- C1 (counterexample): the claimed precedence puts compiler crash
before compiler timeout, but a mutated compilation that both timed out
and exited non-zero (the usual signal pair after the timeout kill, exit
code -15) is classified KILLED_COMPILER_TIMEOUT, not
KILLED_COMPILER_CRASHED: the code of execute_mutated_dafny tests the
timeout flag first. -/
theorem C1_claimed_precedence_counterexample :
    execute_mutated_dafny true (-15) false = some KillStatus.KILLED_COMPILER_TIMEOUT ∧
    some KillStatus.KILLED_COMPILER_TIMEOUT ≠ some KillStatus.KILLED_COMPILER_CRASHED := by
  constructor
  · rfl
  · decide

/-- Characterization of the execution-phase classification of
src/fuzzing/run-fuzz-d.py as a first-match-wins chain. -/
theorem execute_mutated_compiled_program_fst (mb db : PyBytes)
    (rt base : ProcessExecutionResult) :
    (execute_mutated_compiled_program mb db rt base).1 =
      (if compute_file_hash db = compute_file_hash mb then
         KillStatus.SURVIVED_HASH_EQUIVALENT
       else if rt.timeout then KillStatus.KILLED_COMPILER_TIMEOUT
       else if rt.exit_code ≠ base.exit_code then KillStatus.KILLED_RUNTIME_EXITCODE_DIFFER
       else if rt.stdout ≠ base.stdout then KillStatus.KILLED_RUNTIME_STDERR_DIFFER
       else if rt.stderr ≠ base.stderr then KillStatus.KILLED_RUNTIME_STDOUT_DIFFER
       else KillStatus.SURVIVED_HASH_DIFFER) := by
  unfold execute_mutated_compiled_program
  split_ifs <;> simp_all

/-- C1 (amended): the kill-status classification evaluates its
conditions top to bottom with the first match winning, in the order
compiler timeout, then compiler crash, then missing artifact, then the
runtime comparisons.  In DafnyBackend.mutant_execution the runtime
conditions are runtime timeout, exit-code mismatch, stdout mismatch,
stderr mismatch, survived, each yielding its own distinct status; in
run-fuzz-d.py's composite classification a hash-equivalence short
circuit precedes the runtime conditions, a runtime timeout yields the
compiler-timeout status, a stdout mismatch yields the stderr-differ
status and a stderr mismatch yields the stdout-differ status.
DafnyBackend.mutated_compile_to_backend likewise tests compiler timeout
before compiler crash. -/
theorem C1_kill_status_precedence :
    ∀ (ct : Bool) (ce : Int) (af : Bool) (mb db : PyBytes)
      (rt base : ProcessExecutionResult),
    mutant_kill_status ct ce af mb db rt base =
      (if ct then KillStatus.KILLED_COMPILER_TIMEOUT
       else if ce ≠ 0 then KillStatus.KILLED_COMPILER_CRASHED
       else if !af then KillStatus.KILLED_COMPILER_MISSING_EXECUTABLE_OUTPUT
       else if compute_file_hash db = compute_file_hash mb then
         KillStatus.SURVIVED_HASH_EQUIVALENT
       else if rt.timeout then KillStatus.KILLED_COMPILER_TIMEOUT
       else if rt.exit_code ≠ base.exit_code then KillStatus.KILLED_RUNTIME_EXITCODE_DIFFER
       else if rt.stdout ≠ base.stdout then KillStatus.KILLED_RUNTIME_STDERR_DIFFER
       else if rt.stderr ≠ base.stderr then KillStatus.KILLED_RUNTIME_STDOUT_DIFFER
       else KillStatus.SURVIVED_HASH_DIFFER) ∧
    (mutant_execution rt base).1 =
      (if rt.timeout then MutantStatus.KILLED_RUNTIME_TIMEOUT
       else if rt.exit_code ≠ base.exit_code then MutantStatus.KILLED_RUNTIME_EXITCODE_DIFFER
       else if rt.stdout ≠ base.stdout then MutantStatus.KILLED_RUNTIME_STDOUT_DIFFER
       else if rt.stderr ≠ base.stderr then MutantStatus.KILLED_RUNTIME_STDERR_DIFFER
       else MutantStatus.SURVIVED) ∧
    mutated_compile_to_backend ct ce =
      (if ct then MutantStatus.KILLED_COMPILER_TIMEOUT
       else if ce ≠ 0 then MutantStatus.KILLED_COMPILER_CRASHED
       else MutantStatus.SURVIVED) := by
  intro ct ce af mb db rt base
  refine ⟨?_, ?_, ?_⟩
  · unfold mutant_kill_status execute_mutated_dafny
    cases ct
    · cases af <;> by_cases h : ce = 0 <;>
        simp [h, execute_mutated_compiled_program_fst]
    · simp
  · unfold mutant_execution
    split_ifs <;> simp_all
  · rfl

/-- C2: parse_recorded_trace accepts exactly the two-field lines whose
key carries the activation-key prefix, but reconstruct_trace_from_disk
inverts the corruption check (line 17 of
src/fuzzing/util/mutant_trace.py tests `is not None` instead of
`is None`): a trace consisting of one well-formed line is rejected as a
whole (None), while a trace whose every line is malformed is returned
as a list of parse failures instead of a typed failure. -/
theorem C2_trace_parse_and_load_eval :
    parse_recorded_trace (pystr ("MUTATE_CSHARP_ACTIVATED_MUTANT1:0"))
      = some (pystr ("MUTATE_CSHARP_ACTIVATED_MUTANT1"), pystr ("0")) ∧
    parse_recorded_trace (pystr ("MUTATE_CSHARP_ACTIVATED_MUTANT1")) = none ∧
    parse_recorded_trace (pystr ("A:B:C")) = none ∧
    reconstruct_trace_from_disk (some [pystr ("MUTATE_CSHARP_ACTIVATED_MUTANT1:0")]) none
      = PyResult.val none ∧
    reconstruct_trace_from_disk (some [pystr ("garbage")]) none
      = PyResult.val (some [none]) := by
  refine ⟨by rfl, by rfl, by rfl, by rfl, by rfl⟩

/-- C3 (counterexample): DafnyBackend.mutant_execution performs no hash
comparison at all, so even in an execution step whose mutated and
baseline artifacts are byte-identical (hence with equal content hashes)
the execution subprocess is invoked (the Bool component is true) and the
classification is the plain SURVIVED, not the hash-equivalent
survival. -/
theorem C3_claimed_counterexample :
    mutant_execution { exit_code := 0, stdout := [], stderr := [], timeout := false }
        { exit_code := 0, stdout := [], stderr := [], timeout := false }
      = (MutantStatus.SURVIVED, true) := by rfl

/-- C3 (amended): in run-fuzz-d.py's execute_mutated_compiled_program,
whenever the content hashes of the baseline and mutated artifacts are
equal the mutant is classified SURVIVED_HASH_EQUIVALENT and the
execution subprocess is not invoked; DafnyBackend.mutant_execution, used
by run-fuzzer-campaign.py, performs no hash comparison and always
invokes the execution subprocess. -/
theorem C3_hash_short_circuit :
    (∀ (mb db : PyBytes) (rt base : ProcessExecutionResult),
      compute_file_hash db = compute_file_hash mb →
      execute_mutated_compiled_program mb db rt base
        = (KillStatus.SURVIVED_HASH_EQUIVALENT, false)) ∧
    (∀ (rt base : ProcessExecutionResult), (mutant_execution rt base).2 = true) := by
  constructor
  · intro mb db rt base h
    unfold execute_mutated_compiled_program
    simp [h]
  · intro rt base
    rfl

/-- C3 (witness): the short circuit at byte-identical empty binaries,
and the unconditional invocation in mutant_execution. -/
theorem C3_hash_short_circuit_witness :
    execute_mutated_compiled_program [] []
        { exit_code := 0, stdout := [], stderr := [], timeout := false }
        { exit_code := 0, stdout := [], stderr := [], timeout := false }
      = (KillStatus.SURVIVED_HASH_EQUIVALENT, false) ∧
    (mutant_execution { exit_code := 1, stdout := [], stderr := [], timeout := false }
        { exit_code := 0, stdout := [], stderr := [], timeout := false }).2 = true :=
  ⟨C3_hash_short_circuit.1 [] [] _ _ rfl, C3_hash_short_circuit.2 _ _⟩

/-- C4 (counterexample): a summarization state whose partition invariant
fails (killed, skipped and survived lists all empty while one mutant is
covered, as after a time-budget break) with the time budget expired: the
abort test of line 575 of src/fuzzing/run-fuzzer-campaign.py is false
and the process continues, against the claim that an invariant failure
always aborts fatally. -/
theorem C4_claimed_counterexample :
    pySort ([] ++ [] ++ []) ≠ [(pystr ("MUTATE_CSHARP_ACTIVATED_MUTANT1"), pystr ("0"))] ∧
    (campaign_summarize_abort [(pystr ("MUTATE_CSHARP_ACTIVATED_MUTANT1"), pystr ("0"))]
        [] [] [] false true).2 = false := by
  refine ⟨by decide, by rfl⟩

/-- C4 (amended): at summarization the campaign sorts the concatenation
of the killed, survived and skipped lists and compares it with the
covered list; the process aborts fatally exactly when this partition
invariant fails while the time budget has not expired and surviving
mutants remain.  An invariant failure with the budget exhausted or the
surviving set empty is recorded as early termination in the summary and
does not abort. -/
theorem C4_partition_abort_iff :
    ∀ (covered killed survived skipped : List Mutant) (budget surviving : Bool),
      (campaign_summarize_abort covered killed survived skipped budget surviving).2 = true ↔
        (covered ≠ pySort (killed ++ survived ++ skipped)
          ∧ budget = true ∧ surviving = true) := by
  intro covered killed survived skipped budget surviving
  unfold campaign_summarize_abort
  by_cases h : covered = pySort (killed ++ survived ++ skipped) <;>
    simp [h, Bool.and_eq_true, and_assoc]

/-- C5: one pass of the per-mutant loop of src/fuzzing/run-fuzz-d.py for
a candidate whose durable kill-claim directory already exists: the
mutant is recorded as skipped and removed from the surviving set, but
the missing continue statement lets control fall through, the mutated
compilation subprocess is invoked, and the mutant-killing branch then
raises KeyError on the second surviving-set removal instead of moving to
the next mutant. -/
theorem C5_skip_path_eval :
    fd_process_candidate_mutant
      (pystr ("MUTATE_CSHARP_ACTIVATED_MUTANT1"), pystr ("7"))
      { kill_dir_exists := true, compile_timeout := true, compile_exit_code := 0,
        executable_output_is_file := false, mutated_compiled_binary := [],
        default_compiled_binary := [],
        runtime_result := { exit_code := 0, stdout := [], stderr := [], timeout := false },
        default_execution_result := { exit_code := 0, stdout := [], stderr := [], timeout := false } }
      { surviving_mutants := [(pystr ("MUTATE_CSHARP_ACTIVATED_MUTANT1"), pystr ("7"))],
        killed_mutants := [], mutants_skipped_by_program := [],
        mutants_killed_by_program := [],
        mutants_covered_but_not_killed_by_program := [] }
      = ([FdInvocation.compile_mutated], PyResult.exc) := by rfl

/-- C6: the kill-info persistence chain of
src/fuzzing/run-fuzzer-campaign.py handles crash, compiler timeout,
exit-code, stdout and stderr statuses but has no branch for
KILLED_RUNTIME_TIMEOUT, so for a mutant killed on its backends by a
runtime timeout alone no overall status is selected and
persist_kill_info, and with it the creation of the durable kill-claim
directory, is never attempted. -/
theorem C6_persist_chain_eval :
    select_overall_kill_status [MutantStatus.KILLED_RUNTIME_TIMEOUT] = none ∧
    MutantStatus.KILLED_RUNTIME_TIMEOUT ≠ MutantStatus.SURVIVED := by
  refine ⟨by rfl, by decide⟩

/-- The all-success environment of one campaign iteration: generation
succeeds, every baseline compilation and execution succeeds and agrees,
and at least one backend produced a trace file. -/
def campaign_all_success_env : CampaignIterEnv :=
  { program_dir_exists := false, fuzz_d_ok := true, compile_known_bug := false,
    compile_error := false, execute_known_bug := false,
    execute_exitcode_nonzero := false, execute_timeout := false,
    execute_outputs_differ := false, some_trace_exists := true }

/-- C7: in a fully successful campaign iteration the permanent
per-program directory is created directly after generation and before
any baseline compilation, and the second create-if-absent claim at step
9 then raises FileExistsError (the same runner already created the
directory), so the iteration is skipped and trace loading is never
reached. -/
theorem C7_promotion_order_eval :
    campaign_iteration_events campaign_all_success_env =
      [CampaignEvent.fuzz_d_generate, CampaignEvent.mkdir_program_dir false,
       CampaignEvent.copy_program_to_dirs, CampaignEvent.regular_compile,
       CampaignEvent.regular_execute, CampaignEvent.traced_compile,
       CampaignEvent.mkdir_program_dir true] ∧
    CampaignEvent.load_execution_traces ∉ campaign_iteration_events campaign_all_success_env := by
  refine ⟨by rfl, by decide⟩

/-- C8: when every backend's trace file is absent after traced
compilation the campaign continues treating the program as covering no
mutants, but when only some backends produced a trace file the loading
step opens the missing path and raises FileNotFoundError instead of
continuing. -/
theorem C8_partial_trace_eval :
    load_traces_after_traced_compilation [none, none] none
      = PyResult.val TraceLoadOutcome.no_trace_continue ∧
    load_traces_after_traced_compilation
        [some [pystr ("MUTATE_CSHARP_ACTIVATED_MUTANT1:0")], none] none
      = PyResult.exc := by
  refine ⟨by rfl, by rfl⟩

/-- C9: a failing baseline compile on a backend with a non-empty
known-defect list raises AttributeError (str has no attribute contains,
line 146 of src/fuzzing/dafny.py) instead of classifying the result as a
known bug, and likewise for a failing baseline execution on the JAVA
backend (line 185); a backend with an empty list is classified
COMPILER_ERROR without crashing. -/
theorem C9_known_bug_eval :
    regular_compile_program_status DafnyBackend.CSHARP 1 false
        (pystr ("error CS1628")) = PyResult.exc ∧
    regular_execution_program_status DafnyBackend.JAVA
        { exit_code := 1, stdout := [], stderr := [], timeout := false }
        (pystr ("CodePoint")) = PyResult.exc ∧
    regular_compile_program_status DafnyBackend.GO 1 false (pystr (""))
      = PyResult.val RegularProgramStatus.COMPILER_ERROR := by
  refine ⟨by rfl, by rfl, by rfl⟩

end Fuzzing
